import Mathlib

/-!
Shallow embedding of the PNG decoder in `src/lib.rs` (png_to_ascii).
Bytes are modelled as `Nat`; wrapping u8 addition is `% 256`.
Rust operations that can terminate abnormally (index out of bounds,
slice out of range, usize subtraction underflow, division by zero,
`assert_eq!`, `Option::expect`) are modelled by the `panic` outcome of
`PResult`; `io::Error` returns (the `pngerr!` macro) are the `err`
outcome.
-/

/-- Result of running a fallible piece of the decoder: `ok` is a normal
return, `err` is an `io::Error` (the source's `pngerr!`), `panic` is an
abnormal termination of the Rust program. -/
inductive PResult (α : Type) where
  | ok (a : α)
  | err (msg : String)
  | panic (msg : String)
deriving DecidableEq, Repr

def PResult.bind {α β : Type} : PResult α → (α → PResult β) → PResult β
  | .ok a, f => f a
  | .err m, _ => .err m
  | .panic m, _ => .panic m

instance : Monad PResult where
  pure := .ok
  bind := .bind

def PResult.isOk {α : Type} : PResult α → Bool
  | .ok _ => true
  | _ => false

def PResult.isErr {α : Type} : PResult α → Bool
  | .err _ => true
  | _ => false

def PResult.isPanic {α : Type} : PResult α → Bool
  | .panic _ => true
  | _ => false

@[simp] theorem PResult.ok_bind {α β : Type} (a : α) (f : α → PResult β) :
    PResult.bind (.ok a) f = f a := rfl

@[simp] theorem PResult.err_bind {α β : Type} (m : String) (f : α → PResult β) :
    PResult.bind (.err m) f = .err m := rfl

@[simp] theorem PResult.panic_bind {α β : Type} (m : String) (f : α → PResult β) :
    PResult.bind (.panic m) f = .panic m := rfl

@[simp] theorem PResult.bind_eq {α β : Type} (x : PResult α) (f : α → PResult β) :
    x >>= f = x.bind f := rfl

@[simp] theorem PResult.pure_eq {α : Type} (a : α) : (pure a : PResult α) = .ok a := rfl

/-- Rust `v[i]` on a `Vec<u8>`: panics when the index is out of bounds. -/
def getP (l : List Nat) (i : Nat) : PResult Nat :=
  if h : i < l.length then .ok l[i] else .panic "index out of bounds"

/-- Rust `&v[a..b]`: panics when the range is out of bounds or reversed. -/
def sliceP (l : List Nat) (a b : Nat) : PResult (List Nat) :=
  if a ≤ b ∧ b ≤ l.length then .ok ((l.drop a).take (b - a)) else .panic "slice index out of range"

/-- Rust `a - b` on `usize`: panics on underflow. -/
def subP (a b : Nat) : PResult Nat :=
  if b ≤ a then .ok (a - b) else .panic "attempt to subtract with overflow"

/-- The fixed 8-byte PNG magic signature (`PNG_HDR` in the source). -/
def pngHdr : List Nat := [137, 80, 78, 71, 13, 10, 26, 10]

inductive ColorType where
  | Greyscale
  | RGB
  | PaletteIndex
  | GreyscaleAlpha
  | RGBA
deriving DecidableEq, Repr

structure PLTEEntry where
  red : Nat
  green : Nat
  blue : Nat
deriving DecidableEq, Repr

inductive Transparancy where
  | PaletteIndex (entries : List Nat)
  | Greyscale (v : Nat)
  | RGB (r g b : Nat)
deriving DecidableEq, Repr

inductive BKGD where
  | PaletteIndex (v : Nat)
  | Greyscale (v : Nat)
  | RGB (r g b : Nat)
deriving DecidableEq, Repr

/-- `Transparancy::for_indexed_color`: rejects a tRNS payload longer than
the palette, otherwise pads it to the palette length with 255. -/
def Transparancy.for_indexed_color (data : List Nat) (plte_len : Nat) : PResult Transparancy :=
  if plte_len < data.length then .err "tRNS chunk has more entries than PLTE chunk"
  else .ok (.PaletteIndex (data ++ List.replicate (plte_len - data.length) 255))

/-- `Transparancy::for_grayscale`. -/
def Transparancy.for_grayscale (data : List Nat) : PResult Transparancy :=
  match data with
  | [b0, b1] => .ok (.Greyscale ((b0 <<< 8) ||| b1))
  | _ => .err "invalid tRNS chunk"

/-- `Transparancy::for_rgb`. -/
def Transparancy.for_rgb (data : List Nat) : PResult Transparancy :=
  match data with
  | [b0, b1, b2, b3, b4, b5] =>
      .ok (.RGB ((b0 <<< 8) ||| b1) ((b2 <<< 8) ||| b3) ((b4 <<< 8) ||| b5))
  | _ => .err "invalid tRNS chunk"

/-- `IHDRData` (header fields). -/
structure IHDRData where
  width : Nat
  height : Nat
  bit_depth : Nat
  color_type : ColorType
  interlace_method : Bool
deriving DecidableEq, Repr

/-- `IHDRData::from`: the source indexes `data[0]`..`data[9]` and
`data[12]` directly, panicking when the payload is too short. -/
def IHDRData.fromData (data : List Nat) : PResult IHDRData := do
  let b0 ← getP data 0
  let b1 ← getP data 1
  let b2 ← getP data 2
  let b3 ← getP data 3
  let b4 ← getP data 4
  let b5 ← getP data 5
  let b6 ← getP data 6
  let b7 ← getP data 7
  let bit_depth ← getP data 8
  let ctByte ← getP data 9
  let color_type ← (match ctByte with
    | 0 => PResult.ok ColorType.Greyscale
    | 2 => PResult.ok ColorType.RGB
    | 3 => PResult.ok ColorType.PaletteIndex
    | 4 => PResult.ok ColorType.GreyscaleAlpha
    | 6 => PResult.ok ColorType.RGBA
    | _ => PResult.err "invalid color type")
  let b12 ← getP data 12
  .ok { width := (b0 <<< 24) ||| (b1 <<< 16) ||| (b2 <<< 8) ||| b3,
        height := (b4 <<< 24) ||| (b5 <<< 16) ||| (b6 <<< 8) ||| b7,
        bit_depth := bit_depth,
        color_type := color_type,
        interlace_method := b12 == 1 }

/-- The decoded `Image` record. -/
structure Image where
  width : Nat
  height : Nat
  bit_depth : Nat
  color_type : ColorType
  interlaced : Bool
  data : List Nat
  plte : Option (List PLTEEntry)
  background : Option BKGD
  transparancy : Option Transparancy
deriving DecidableEq, Repr

inductive Chunk where
  | IHDR (d : IHDRData)
  | PLTE (entries : List PLTEEntry)
  | IDAT (data : List Nat)
  | IEND
  | BKGD (b : BKGD)
  | CHRM
  | GAMA
  | HIST
  | PHYS
  | SBIT
  | TEXT
  | TIME
  | TRNS (data : List Nat)
  | ZTXT
deriving DecidableEq, Repr

/-- The PLTE payload loop: group the payload three bytes at a time.  The
source loops `idx` by 3 until `idx == len`, which (given `len % 3 == 0`)
consumes the payload in exact 3-byte groups. -/
def plteEntries : List Nat → List PLTEEntry
  | r :: g :: b :: rest => ⟨r, g, b⟩ :: plteEntries rest
  | _ => []

/-- `ImageHelper`: the chunk-stream reader state (cursor plus the whole
file buffer). -/
structure ImageHelper where
  offset : Nat
  data : List Nat
deriving DecidableEq, Repr

/-- `Chunk::new`: read a 4-byte big-endian length, a 4-byte type tag,
exactly `len` payload bytes, dispatch on the tag, then skip the 4
trailing CRC bytes.  Out-of-range slices panic exactly as in Rust. -/
def Chunk.new (image : ImageHelper) : PResult (Chunk × ImageHelper) := do
  let len_slice ← sliceP image.data image.offset (image.offset + 4)
  let len := ((len_slice.getD 0 0) <<< 24) ||| ((len_slice.getD 1 0) <<< 16) |||
             ((len_slice.getD 2 0) <<< 8) ||| (len_slice.getD 3 0)
  let offset := image.offset + 4 + 4
  let data ← sliceP image.data offset (offset + len)
  let tag ← sliceP image.data (offset - 4) offset
  let chunk ← (
    if tag = [73, 72, 68, 82] then do  -- "IHDR"
      let d ← IHDRData.fromData data
      PResult.ok (Chunk.IHDR d)
    else if tag = [80, 76, 84, 69] then  -- "PLTE"
      if len % 3 ≠ 0 then PResult.err "invalid PLTE chunk"
      else PResult.ok (Chunk.PLTE (plteEntries data))
    else if tag = [73, 68, 65, 84] then PResult.ok (Chunk.IDAT data)  -- "IDAT"
    else if tag = [73, 69, 78, 68] then  -- "IEND"
      if len ≠ 0 then PResult.err "IEND chunk must not contain any data"
      else PResult.ok Chunk.IEND
    else if tag = [98, 75, 71, 68] then  -- "bKGD"
      match data with
      | [b0] => PResult.ok (Chunk.BKGD (BKGD.PaletteIndex b0))
      | [b0, b1] => PResult.ok (Chunk.BKGD (BKGD.Greyscale ((b0 <<< 8) ||| b1)))
      | [b0, b1, b2, b3, b4, b5] =>
          PResult.ok (Chunk.BKGD (BKGD.RGB ((b0 <<< 8) ||| b1) ((b2 <<< 8) ||| b3)
            ((b4 <<< 8) ||| b5)))
      | _ => PResult.err "invalid bKGD chunk"
    else if tag = [99, 72, 82, 77] then PResult.ok Chunk.CHRM   -- "cHRM"
    else if tag = [103, 65, 77, 65] then PResult.ok Chunk.GAMA  -- "gAMA"
    else if tag = [104, 73, 83, 84] then PResult.ok Chunk.HIST  -- "hIST"
    else if tag = [112, 72, 89, 115] then PResult.ok Chunk.PHYS -- "pHYs"
    else if tag = [115, 66, 73, 84] then PResult.ok Chunk.SBIT  -- "sBIT"
    else if tag = [116, 69, 88, 116] then PResult.ok Chunk.TEXT -- "tEXt"
    else if tag = [116, 73, 77, 69] then PResult.ok Chunk.TIME  -- "tIME"
    else if tag = [116, 82, 78, 83] then PResult.ok (Chunk.TRNS data)  -- "tRNS"
    else if tag = [122, 84, 88, 84] then PResult.ok Chunk.ZTXT  -- "zTXT"
    else PResult.err "invalid PNG chunk")
  let offset := offset + len
  let _crc ← sliceP image.data offset (offset + 4)
  .ok (chunk, { image with offset := offset + 4 })

/-- `ImageHelper::from`: slice the first 8 bytes (panics when the buffer
is shorter) and `assert_eq!` them against the PNG magic (panics on
mismatch; the source returns no structured error here). -/
def ImageHelper.fromData (data : List Nat) : PResult ImageHelper := do
  let pnghdr ← sliceP data 0 8
  if pnghdr = pngHdr then .ok ⟨8, data⟩ else .panic "assertion failed"

/-- `ImageHelper::next`: one chunk, with `IEND` mapped to end-of-stream. -/
def ImageHelper.next (h : ImageHelper) : PResult (Option Chunk × ImageHelper) := do
  let (chunk, h') ← Chunk.new h
  match chunk with
  | .IEND => .ok (none, h')
  | c => .ok (some c, h')

inductive FilterType where
  | None
  | Sub
  | Up
  | Average
  | Paeth
deriving DecidableEq, Repr

/-- `FilterType::from`: bytes 0-4 map to the five filters, anything else
is an error. -/
def FilterType.fromByte (byte : Nat) : PResult FilterType :=
  match byte with
  | 0 => .ok .None
  | 1 => .ok .Sub
  | 2 => .ok .Up
  | 3 => .ok .Average
  | 4 => .ok .Paeth
  | _ => .err "invalid filter type"

/-- `paeth_predictor`: the three-way minimum-difference predictor,
computed in exact signed arithmetic (the source uses `i16`, which never
overflows for byte inputs). -/
def paeth_predictor (left top top_left : Nat) : Nat :=
  let p : Int := (left : Int) + (top : Int) - (top_left : Int)
  let pleft := (p - (left : Int)).natAbs
  let ptop := (p - (top : Int)).natAbs
  let ptop_left := (p - (top_left : Int)).natAbs
  if pleft ≤ ptop ∧ pleft ≤ ptop_left then left
  else if ptop ≤ ptop_left then top
  else top_left

/-- One iteration of the Sub branch: `filtered[x] + image.data[x - bpp - 1 - r]`
(wrapping), with the first `bpp` bytes of the row copied unchanged. -/
def subStep (filtered : List Nat) (width bpp r c : Nat) (data : List Nat) : PResult Nat :=
  let x := r * width + c
  if c < bpp + 1 then getP filtered x
  else do
    let fx ← getP filtered x
    let dv ← getP data (x - bpp - 1 - r)
    .ok ((fx + dv) % 256)

/-- One iteration of the Up branch: the source adds `filtered[x - prior]`
where `x - prior` works out to `r`, i.e. the byte at absolute index `r`
of the decompressed buffer (not the row-above byte). -/
def upStep (filtered : List Nat) (width r c : Nat) (_data : List Nat) : PResult Nat :=
  let x := r * width + c
  let prior := r * (width - 1) + c
  if r = 0 then getP filtered x
  else do
    let fx ← getP filtered x
    let fp ← getP filtered (x - prior)
    .ok ((fx + fp) % 256)

/-- One iteration of the Average branch (reads its neighbours from the
`filtered` buffer at the source's literal offsets). -/
def avgStep (filtered : List Nat) (width bpp r c : Nat) (_data : List Nat) : PResult Nat := do
  let x := r * width + c
  let raw_x_bpp ← if c < bpp + 1 then PResult.ok 0 else getP filtered (x - bpp - 1 - r)
  let prior ← if r = 0 then PResult.ok 0 else getP filtered (r * (width - 1) + c)
  let fx ← getP filtered x
  .ok ((fx + (raw_x_bpp + prior) / 2) % 256)

/-- One iteration of the Paeth branch.  The `x - bpp - 1 - r` offset is a
`usize` expression that underflows (panics) when `bpp ≤ x < bpp + 1 + r`,
which is modelled by the `subP` chain. -/
def paethStep (filtered : List Nat) (width bpp r c : Nat) (_data : List Nat) : PResult Nat := do
  let x := r * width + c
  let top_idx := r * (width - 1) + c
  let left ← if bpp > x then PResult.ok 0 else do
      let a ← subP (x - bpp) 1
      let i ← subP a r
      getP filtered i
  let top ← if r = 0 then PResult.ok 0 else getP filtered top_idx
  let top_left ← if r = 0 ∨ c < bpp + 1 then PResult.ok 0 else getP filtered (top_idx - bpp)
  let fx ← getP filtered x
  .ok ((fx + paeth_predictor left top top_left) % 256)

/-- The `for c in 1..width` loop shared by the Sub/Up/Average/Paeth
branches: run `step` on successive column indices, appending each
produced byte to the output buffer. -/
def rowLoop (step : Nat → List Nat → PResult Nat) : Nat → Nat → List Nat → PResult (List Nat)
  | 0, _, data => .ok data
  | n + 1, c, data =>
    (step c data).bind fun v => rowLoop step n (c + 1) (data ++ [v])

/-- Defilter one row according to its filter type. -/
def revRow (filtered : List Nat) (width bpp r : Nat) (ft : FilterType) (data : List Nat) :
    PResult (List Nat) :=
  match ft with
  | .None =>
      (sliceP filtered (r * width + 1) (r * width + width)).bind fun s => .ok (data ++ s)
  | .Sub => rowLoop (subStep filtered width bpp r) (width - 1) 1 data
  | .Up => rowLoop (upStep filtered width r) (width - 1) 1 data
  | .Average => rowLoop (avgStep filtered width bpp r) (width - 1) 1 data
  | .Paeth => rowLoop (paethStep filtered width bpp r) (width - 1) 1 data

/-- The `for r in 0..image.height` loop of `reverse_filter`: read the
row's filter-type byte at `filtered[r * width]`, then defilter the row. -/
def revRows (filtered : List Nat) (width bpp : Nat) : Nat → Nat → List Nat → PResult (List Nat)
  | 0, _, data => .ok data
  | rows + 1, r, data =>
    (getP filtered (r * width)).bind fun ftByte =>
    (FilterType.fromByte ftByte).bind fun ft =>
    (revRow filtered width bpp r ft data).bind fun data' =>
    revRows filtered width bpp rows (r + 1) data'

/-- `reverse_filter`: the scanline defilterer.  The source's first line,
`filtered.len() / image.height as usize`, is a usize division that
panics when `height` is 0; `width` is the quotient (the per-row byte
count including the filter byte) and is never derived from the declared
image width. -/
def reverse_filter (filtered : List Nat) (image : Image) : PResult Image :=
  if image.height = 0 then .panic "attempt to divide by zero"
  else
    let width := filtered.length / image.height
    let bpp := match image.color_type with
      | .Greyscale => if image.bit_depth = 16 then 2 else 1
      | .RGB => if image.bit_depth = 8 then 3 else 6
      | .PaletteIndex => 1
      | .GreyscaleAlpha => if image.bit_depth = 8 then 2 else 4
      | .RGBA => if image.bit_depth = 8 then 4 else 8
    (revRows filtered width bpp image.height 0 image.data).bind fun data =>
      .ok { image with data := data }

/-- The legality pass keyed by color model at the end of `Image::from`
(bit-depth table, palette presence, palette-size bound). -/
def Image.validate (image : Image) : PResult Unit :=
  match image.color_type with
  | .Greyscale =>
      if image.bit_depth = 1 ∨ image.bit_depth = 2 ∨ image.bit_depth = 4 ∨
         image.bit_depth = 8 ∨ image.bit_depth = 16 then
        if image.plte.isSome then .err "PNG of Greyscale color type cannot have a PLTE chunk"
        else .ok ()
      else .err "PNG of Greyscale color type must have bit depth of 1, 2, 4, 8, or 16"
  | .GreyscaleAlpha =>
      if image.bit_depth = 8 ∨ image.bit_depth = 16 then
        if image.plte.isSome then
          .err "PNG of Greyscale with Alpha color type cannot have a PLTE chunk"
        else .ok ()
      else .err "PNG of Greyscale with Alpha color type must have bit depth of 8 or 16"
  | .PaletteIndex =>
      if image.bit_depth = 1 ∨ image.bit_depth = 2 ∨ image.bit_depth = 4 ∨
         image.bit_depth = 8 then
        match image.plte with
        | none => .err "PNG of Palette Index color type must have a PLTE chunk"
        | some plte =>
            if 2 ^ image.bit_depth < plte.length then
              .err "PNG of Palette Index color type can not have more entries that its bit depth range"
            else .ok ()
      else .err "PNG of Palette Index color type must have bit depth of 1, 2, 4, or 8"
  | .RGB =>
      if image.bit_depth = 8 ∨ image.bit_depth = 16 then .ok ()
      else .err "PNG of RGB color type must have bit depth of 8 or 16"
  | .RGBA =>
      if image.bit_depth = 8 ∨ image.bit_depth = 16 then .ok ()
      else .err "PNG of RGB with Alpha color type must have bit depth of 8 or 16"

/-- The chunk-accumulation loop of `Image::from`: pull chunks one at a
time, update the partially-filled image, and collect IDAT payloads.
`fuel` bounds the number of iterations; every call from `Image.fromData`
passes more fuel than any buffer can yield chunks (each chunk consumes
at least 12 bytes of the cursor). -/
def processChunks : Nat → ImageHelper → Image → List Nat → PResult (Image × List Nat)
  | 0, _, _, _ => .panic "out of fuel"
  | fuel + 1, helper, image, compressed =>
    (ImageHelper.next helper).bind fun (oc, helper') =>
    match oc with
    | none => .ok (image, compressed)
    | some chunk =>
      match chunk with
      | .IEND => .ok (image, compressed)
      | .IHDR ihdr =>
          processChunks fuel helper'
            { image with width := ihdr.width, height := ihdr.height,
                         bit_depth := ihdr.bit_depth, color_type := ihdr.color_type,
                         interlaced := ihdr.interlace_method } compressed
      | .PLTE plte =>
          if image.plte.isSome then .err "PNG must not have more than one PLTE chunk"
          else if image.background.isSome then .err "bKGD chunk can not preceed a PLTE chunk"
          else processChunks fuel helper' { image with plte := some plte } compressed
      | .IDAT d => processChunks fuel helper' image (compressed ++ d)
      | .BKGD background =>
          if compressed ≠ [] then .err "bKGD chunk can not come after the IDAT chunk"
          else
            (match image.color_type, background with
              | ColorType.PaletteIndex, BKGD.PaletteIndex _ => PResult.ok ()
              | ColorType.PaletteIndex, _ =>
                  PResult.err "PNG with color type 3 can only have palette index bKGD chunk"
              | ColorType.Greyscale, BKGD.Greyscale _ => PResult.ok ()
              | ColorType.GreyscaleAlpha, BKGD.Greyscale _ => PResult.ok ()
              | ColorType.Greyscale, _ =>
                  PResult.err "PNG with color type 0 or 4 can only have grey bKGD chunk"
              | ColorType.GreyscaleAlpha, _ =>
                  PResult.err "PNG with color type 0 or 4 can only have grey bKGD chunk"
              | ColorType.RGB, BKGD.RGB _ _ _ => PResult.ok ()
              | ColorType.RGBA, BKGD.RGB _ _ _ => PResult.ok ()
              | ColorType.RGB, _ =>
                  PResult.err "PNG with color type 2 or 6 can only have RGB bKGD chunk"
              | ColorType.RGBA, _ =>
                  PResult.err "PNG with color type 2 or 6 can only have RGB bKGD chunk"
            ).bind fun _ =>
              processChunks fuel helper' { image with background := some background } compressed
      | .TRNS d =>
          (match image.color_type with
            | ColorType.PaletteIndex =>
                match image.plte with
                | none => PResult.panic "missing PLTE chunk"
                | some p =>
                    (Transparancy.for_indexed_color d p.length).bind fun t =>
                      processChunks fuel helper' { image with transparancy := some t } compressed
            | ColorType.Greyscale =>
                (Transparancy.for_grayscale d).bind fun t =>
                  processChunks fuel helper' { image with transparancy := some t } compressed
            | ColorType.RGB =>
                (Transparancy.for_rgb d).bind fun t =>
                  processChunks fuel helper' { image with transparancy := some t } compressed
            | ColorType.GreyscaleAlpha =>
                PResult.err "PNG with color types 4 or 6 can not have a tRNS chunk"
            | ColorType.RGBA =>
                PResult.err "PNG with color types 4 or 6 can not have a tRNS chunk")
      | .CHRM | .GAMA | .HIST | .PHYS | .SBIT | .TEXT | .TIME | .ZTXT =>
          processChunks fuel helper' image compressed

/-- The zero-initialized image `Image::from` starts with. -/
def initImage : Image :=
  { width := 0, height := 0, bit_depth := 0, color_type := .Greyscale, interlaced := false,
    data := [], plte := none, background := none, transparancy := none }

/-- `Image::from`: the whole decode pipeline.  The inflate step (flate2's
`ZlibDecoder`, an external collaborator per its contract) is passed in as
a function from the accumulated compressed bytes to the decompressed
buffer. -/
def Image.fromData (file : List Nat) (inflate : List Nat → PResult (List Nat)) :
    PResult Image := do
  let chunks ← ImageHelper.fromData file
  let (image, compressed) ← processChunks (file.length + 1) chunks initImage []
  image.validate
  let filtered ← inflate compressed
  reverse_filter filtered image

/-- The spec's channel count per color model: 1 for Greyscale and
Palette-Indexed, 2 for Greyscale+Alpha, 3 for RGB, 4 for RGB+Alpha.
(Stated from the spec's words, for comparison with the code.) -/
def channel_count : ColorType → Nat
  | .Greyscale => 1
  | .PaletteIndex => 1
  | .GreyscaleAlpha => 2
  | .RGB => 3
  | .RGBA => 4

/-- The Paeth predictor as worded by the spec: `p = left + above -
upper_left` in exact signed arithmetic, absolute distances, return
`left` when its distance is ≤ both others, else `above` when its
distance is ≤ the third, else `upper_left`.  (Stated from the spec's
words, for comparison with `paeth_predictor`.) -/
def paethSpec (left above upper_left : Nat) : Nat :=
  let p : Int := (left : Int) + (above : Int) - (upper_left : Int)
  if |p - (left : Int)| ≤ |p - (above : Int)| ∧ |p - (left : Int)| ≤ |p - (upper_left : Int)| then
    left
  else if |p - (above : Int)| ≤ |p - (upper_left : Int)| then above
  else upper_left

theorem sliceP_ok {l : List Nat} {a b : Nat} {s : List Nat} (h : sliceP l a b = .ok s) :
    a ≤ b ∧ b ≤ l.length ∧ s = (l.drop a).take (b - a) := by
  unfold sliceP at h
  split at h
  · exact ⟨by omega, by omega, by cases h; rfl⟩
  · cases h

theorem sliceP_front_append (front xs : List Nat) (n : Nat) (hn : n ≤ xs.length) :
    sliceP (front ++ xs) front.length (front.length + n) = .ok (xs.take n) := by
  unfold sliceP
  rw [if_pos]
  · congr 1
    rw [List.drop_left, Nat.add_sub_cancel_left]
  · simp [List.length_append]
    omega

theorem sliceP_past_end (l : List Nat) (a b : Nat) (hb : l.length < b) :
    sliceP l a b = .panic "slice index out of range" := by
  unfold sliceP
  rw [if_neg]
  omega

theorem rowLoop_ok_length (step : Nat → List Nat → PResult Nat) :
    ∀ (n c : Nat) (data data' : List Nat), rowLoop step n c data = .ok data' →
      data'.length = data.length + n := by
  intro n
  induction n with
  | zero =>
      intro c data data' h
      simp only [rowLoop] at h
      cases h
      simp
  | succ n ih =>
      intro c data data' h
      simp only [rowLoop] at h
      cases hs : step c data with
      | ok v =>
          rw [hs, PResult.ok_bind] at h
          have := ih (c + 1) (data ++ [v]) data' h
          simp at this
          omega
      | err m => rw [hs, PResult.err_bind] at h; cases h
      | panic m => rw [hs, PResult.panic_bind] at h; cases h

theorem revRow_ok_length (filtered : List Nat) (width bpp r : Nat) (ft : FilterType)
    (data data' : List Nat) (h : revRow filtered width bpp r ft data = .ok data') :
    data'.length = data.length + (width - 1) := by
  cases ft with
  | None =>
      simp only [revRow] at h
      cases hs : sliceP filtered (r * width + 1) (r * width + width) with
      | ok s =>
          rw [hs, PResult.ok_bind] at h
          cases h
          obtain ⟨hab, hbl, hse⟩ := sliceP_ok hs
          subst hse
          simp [List.length_take, List.length_drop]
          omega
      | err m => rw [hs, PResult.err_bind] at h; cases h
      | panic m => rw [hs, PResult.panic_bind] at h; cases h
  | Sub => exact rowLoop_ok_length _ _ _ _ _ h
  | Up => exact rowLoop_ok_length _ _ _ _ _ h
  | Average => exact rowLoop_ok_length _ _ _ _ _ h
  | Paeth => exact rowLoop_ok_length _ _ _ _ _ h

theorem revRows_ok_length (filtered : List Nat) (width bpp : Nat) :
    ∀ (rows r : Nat) (data data' : List Nat),
      revRows filtered width bpp rows r data = .ok data' →
      data'.length = data.length + rows * (width - 1) := by
  intro rows
  induction rows with
  | zero =>
      intro r data data' h
      simp only [revRows] at h
      cases h
      simp
  | succ n ih =>
      intro r data data' h
      simp only [revRows] at h
      cases h1 : getP filtered (r * width) with
      | ok ftByte =>
          rw [h1, PResult.ok_bind] at h
          cases h2 : FilterType.fromByte ftByte with
          | ok ft =>
              rw [h2, PResult.ok_bind] at h
              cases h3 : revRow filtered width bpp r ft data with
              | ok dmid =>
                  rw [h3, PResult.ok_bind] at h
                  have hrow := revRow_ok_length _ _ _ _ _ _ _ h3
                  have hrest := ih (r + 1) dmid data' h
                  rw [hrest, hrow]
                  ring
              | err m => rw [h3, PResult.err_bind] at h; cases h
              | panic m => rw [h3, PResult.panic_bind] at h; cases h
          | err m => rw [h2, PResult.err_bind] at h; cases h
          | panic m => rw [h2, PResult.panic_bind] at h; cases h
      | err m => rw [h1, PResult.err_bind] at h; cases h
      | panic m => rw [h1, PResult.panic_bind] at h; cases h

/-- Core length fact about the defilterer: a successful run appends
exactly `height * (filtered.length / height - 1)` bytes, with the
per-row byte width taken from the quotient of the buffer length by the
height alone. -/
theorem reverse_filter_ok_length (filtered : List Nat) (image image' : Image)
    (h : reverse_filter filtered image = .ok image') :
    image'.data.length = image.data.length +
      image.height * (filtered.length / image.height - 1) := by
  unfold reverse_filter at h
  split at h
  · cases h
  · simp only [] at h
    cases hr : revRows filtered (filtered.length / image.height)
        (match image.color_type with
          | .Greyscale => if image.bit_depth = 16 then 2 else 1
          | .RGB => if image.bit_depth = 8 then 3 else 6
          | .PaletteIndex => 1
          | .GreyscaleAlpha => if image.bit_depth = 8 then 2 else 4
          | .RGBA => if image.bit_depth = 8 then 4 else 8)
        image.height 0 image.data with
    | ok d =>
        rw [hr, PResult.ok_bind] at h
        cases h
        have := revRows_ok_length _ _ _ _ _ _ _ hr
        simpa [Nat.mul_comm] using this
    | err m => rw [hr, PResult.err_bind] at h; cases h
    | panic m => rw [hr, PResult.panic_bind] at h; cases h

/-- A 13-byte IHDR chunk (length, tag, payload, CRC) for small widths
and heights. -/
def mkIhdrChunk (w h bd ct : Nat) : List Nat :=
  [0, 0, 0, 13, 73, 72, 68, 82, 0, 0, 0, w, 0, 0, 0, h, bd, ct, 0, 0, 0, 0, 0, 0, 0]

/-- An empty IEND chunk (length, tag, CRC). -/
def iendChunk : List Nat := [0, 0, 0, 0, 73, 69, 78, 68, 0, 0, 0, 0]

/-- Scenario B decompressed buffer: a 2x2 RGB 8-bit image, row 0
filtered None with bytes 10..60, row 1 filtered Up with bytes 1..6. -/
def c1filtered : List Nat := [0, 10, 20, 30, 40, 50, 60, 2, 1, 2, 3, 4, 5, 6]

/-- The 2x2 RGB 8-bit header state the defilterer runs under in
scenario B. -/
def c1image : Image :=
  { width := 2, height := 2, bit_depth := 8, color_type := .RGB, interlaced := false,
    data := [], plte := none, background := none, transparancy := none }

/-- C1: the claim fails on the code.  On the 2x2 RGB scenario-B input
the Up branch adds `filtered[x - prior]` where `x - prior` reduces to the
row index `r`, i.e. it adds `filtered[1]` (row 0's first raw byte, 10)
to every row-1 byte, producing `[11, 12, 13, 14, 15, 16]` instead of the
claimed `filtered + raw(row above, same column)` values
`[11, 22, 33, 44, 55, 66]`.  The code contradicts its own comment
(`Raw(x) = Up(x) + Prior(x)`, RFC 2083 section 6.4). -/
theorem C1_up_filter_bug :
    reverse_filter c1filtered c1image =
      .ok { c1image with data := [10, 20, 30, 40, 50, 60, 11, 12, 13, 14, 15, 16] } ∧
    [11, 12, 13, 14, 15, 16] ≠
      [(1 + 10) % 256, (2 + 20) % 256, (3 + 30) % 256, (4 + 40) % 256, (5 + 50) % 256,
       (6 + 60) % 256] :=
  ⟨rfl, by decide⟩

/-- C10: for every successful run of the defilterer (started, as the
pipeline starts it, with an empty output buffer), the raw sample buffer
length equals `height * (filtered.length / height - 1)`: the per-row
byte width is the integer quotient of the decompressed length by the
height, and neither the declared width nor the bit depth nor the color
model enters the formula. -/
theorem C10_defilter_length (filtered : List Nat) (image image' : Image)
    (h0 : image.data = []) (h : reverse_filter filtered image = .ok image') :
    image'.data.length = image.height * (filtered.length / image.height - 1) := by
  have := reverse_filter_ok_length filtered image image' h
  rw [h0] at this
  simpa using this

/-- C10 witness: a 1x1 greyscale buffer `[0, 7]` defilters to one byte,
matching `1 * (2 / 1 - 1)`. -/
theorem C10_defilter_length_witness :
    ({ width := 1, height := 1, bit_depth := 8, color_type := .Greyscale, interlaced := false,
       data := [7], plte := none, background := none, transparancy := none } : Image).data.length =
      (1 : Nat) * ((2 : Nat) / 1 - 1) :=
  C10_defilter_length [0, 7]
    { width := 1, height := 1, bit_depth := 8, color_type := .Greyscale, interlaced := false,
      data := [], plte := none, background := none, transparancy := none } _ rfl rfl

/-- C7: a transparency payload longer than the palette is rejected with
an error; a payload no longer than the palette is stored as the given
bytes padded with 255 up to the palette length, so the stored sequence's
length always equals the palette length. -/
theorem C7_trns_padding (data : List Nat) (plte_len : Nat) :
    (plte_len < data.length →
      Transparancy.for_indexed_color data plte_len =
        .err "tRNS chunk has more entries than PLTE chunk") ∧
    (data.length ≤ plte_len →
      Transparancy.for_indexed_color data plte_len =
        .ok (.PaletteIndex (data ++ List.replicate (plte_len - data.length) 255))) ∧
    (data.length ≤ plte_len → ∀ entries,
      Transparancy.for_indexed_color data plte_len = .ok (.PaletteIndex entries) →
      entries.length = plte_len) := by
  refine ⟨?_, ?_, ?_⟩
  · intro h
    unfold Transparancy.for_indexed_color
    rw [if_pos h]
  · intro h
    unfold Transparancy.for_indexed_color
    rw [if_neg (by omega)]
  · intro h entries he
    unfold Transparancy.for_indexed_color at he
    rw [if_neg (by omega)] at he
    cases he
    simp [List.length_append, List.length_replicate]
    omega

/-- C7 witness: a 2-byte payload against a 4-entry palette is padded to
`[1, 2, 255, 255]`; a 3-byte payload against a 2-entry palette is
rejected. -/
theorem C7_trns_padding_witness :
    Transparancy.for_indexed_color [1, 2] 4 = .ok (.PaletteIndex [1, 2, 255, 255]) ∧
    Transparancy.for_indexed_color [1, 2, 3] 2 =
      .err "tRNS chunk has more entries than PLTE chunk" :=
  ⟨(C7_trns_padding [1, 2] 4).2.1 (by decide), (C7_trns_padding [1, 2, 3] 2).1 (by decide)⟩

/-- C3: the code's Paeth predictor agrees with the spec's formula (exact
signed arithmetic, absolute distances, tie-break order left, above,
upper-left); in particular it is the identity on equal inputs, left wins
the tie with above, above wins the tie with upper-left. -/
theorem C3_paeth_predictor_correct (left above upper_left : Nat)
    (h1 : left < 256) (h2 : above < 256) (h3 : upper_left < 256) :
    paeth_predictor left above upper_left = paethSpec left above upper_left ∧
    paeth_predictor left left left = left ∧
    (((left : Int) + above - upper_left - left).natAbs ≤
        ((left : Int) + above - upper_left - above).natAbs →
      ((left : Int) + above - upper_left - left).natAbs ≤
        ((left : Int) + above - upper_left - upper_left).natAbs →
      paeth_predictor left above upper_left = left) ∧
    (¬ (((left : Int) + above - upper_left - left).natAbs ≤
          ((left : Int) + above - upper_left - above).natAbs ∧
        ((left : Int) + above - upper_left - left).natAbs ≤
          ((left : Int) + above - upper_left - upper_left).natAbs) →
      ((left : Int) + above - upper_left - above).natAbs ≤
        ((left : Int) + above - upper_left - upper_left).natAbs →
      paeth_predictor left above upper_left = above) ∧
    (¬ (((left : Int) + above - upper_left - left).natAbs ≤
          ((left : Int) + above - upper_left - above).natAbs ∧
        ((left : Int) + above - upper_left - left).natAbs ≤
          ((left : Int) + above - upper_left - upper_left).natAbs) →
      ¬ ((left : Int) + above - upper_left - above).natAbs ≤
          ((left : Int) + above - upper_left - upper_left).natAbs →
      paeth_predictor left above upper_left = upper_left) := by
  refine ⟨?_, ?_, ?_, ?_, ?_⟩
  · unfold paeth_predictor paethSpec
    simp only [Int.abs_eq_natAbs, Nat.cast_le]
  · unfold paeth_predictor
    simp
  · intro ha hb
    unfold paeth_predictor
    simp only []
    rw [if_pos ⟨ha, hb⟩]
  · intro hc ht
    unfold paeth_predictor
    simp only []
    rw [if_neg hc, if_pos ht]
  · intro hc ht
    unfold paeth_predictor
    simp only []
    rw [if_neg hc, if_neg ht]

/-- C3 witness: a concrete byte triple (left 5, above 5, upper-left 9)
on which the code and the spec agree, both returning left. -/
theorem C3_paeth_predictor_correct_witness :
    paeth_predictor 5 5 9 = paethSpec 5 5 9 ∧ paeth_predictor 7 7 7 = 7 :=
  ⟨(C3_paeth_predictor_correct 5 5 9 (by decide) (by decide) (by decide)).1,
   (C3_paeth_predictor_correct 7 7 7 (by decide) (by decide) (by decide)).2.1⟩

/-- A file whose header declares a 5x1 greyscale 8-bit image but whose
IDAT stream inflates to only 3 bytes (`[0, 1, 2]`: a None filter byte
and two samples). -/
def c2stream : List Nat :=
  pngHdr ++ mkIhdrChunk 5 1 8 0 ++
  ([0, 0, 0, 3, 73, 68, 65, 84, 9, 9, 9, 0, 0, 0, 0]) ++ iendChunk

/-- The image the decoder produces for `c2stream`. -/
def c2img : Image :=
  { width := 5, height := 1, bit_depth := 8, color_type := .Greyscale, interlaced := false,
    data := [1, 2], plte := none, background := none, transparancy := none }

/-- C2 counterexample: the decode of `c2stream` succeeds, yet
`width * height * channel_count = 5` while the raw sample buffer has
length 2 — nothing in the decoder ties the decompressed length to the
declared width. -/
theorem C2_counterexample :
    Image.fromData c2stream (fun _ => .ok [0, 1, 2]) = .ok c2img ∧
    c2img.width * c2img.height * channel_count c2img.color_type ≠ c2img.data.length :=
  ⟨rfl, by decide⟩

/-- C2 amended: the raw sample buffer length equals
`height * (decompressed_length / height - 1)`; the claimed equality
`width * height * channel_count = length` holds exactly when the
decompressed buffer has the canonical `height * (width * channel_count + 1)`
bytes (the size a well-formed bit-depth-8 stream inflates to). -/
theorem C2_amended_buffer_length (filtered : List Nat) (image image' : Image)
    (h0 : image.data = []) (hh : 0 < image.height)
    (hlen : filtered.length = image.height * (image.width * channel_count image.color_type + 1))
    (h : reverse_filter filtered image = .ok image') :
    image'.data.length = image.width * image.height * channel_count image.color_type := by
  have hl := reverse_filter_ok_length filtered image image' h
  rw [h0, hlen] at hl
  simp only [List.length_nil, Nat.zero_add] at hl
  rw [Nat.mul_div_cancel_left _ hh] at hl
  rw [hl]
  ring_nf
  simp [Nat.mul_comm]
  ring

/-- C2 amended witness: a 1x1 greyscale image with canonical buffer
`[0, 7]` (2 = 1 * (1 * 1 + 1) bytes) yields a raw buffer of length
`1 * 1 * 1`. -/
theorem C2_amended_buffer_length_witness :
    ({ width := 1, height := 1, bit_depth := 8, color_type := .Greyscale, interlaced := false,
       data := [7], plte := none, background := none, transparancy := none } : Image).data.length =
      (1 : Nat) * 1 * channel_count .Greyscale :=
  C2_amended_buffer_length [0, 7]
    { width := 1, height := 1, bit_depth := 8, color_type := .Greyscale, interlaced := false,
      data := [], plte := none, background := none, transparancy := none } _
    rfl (by decide) (by decide) rfl

/-- C4 counterexample: an input whose first byte is altered makes the
decode terminate abnormally (`assert_eq!` failure), not return a
structured error value. -/
theorem C4_counterexample :
    Image.fromData [0, 80, 78, 71, 13, 10, 26, 10] (fun _ => .ok []) =
      .panic "assertion failed" := rfl

/-- C4 amended: for every input whose first 8 bytes differ from the PNG
magic signature, decoding terminates abnormally (a panic, from the
source's `assert_eq!` or from slicing a too-short buffer) with no
partial decode, rather than returning a structured error value. -/
theorem C4_amended_signature_panic (data : List Nat)
    (inflate : List Nat → PResult (List Nat)) (h : data.take 8 ≠ pngHdr) :
    (Image.fromData data inflate).isPanic = true := by
  unfold Image.fromData ImageHelper.fromData
  simp only [PResult.bind_eq]
  unfold sliceP
  by_cases hb : (0 : Nat) ≤ 8 ∧ 8 ≤ data.length
  · rw [if_pos hb]
    simp only [PResult.ok_bind, List.drop_zero, Nat.sub_zero]
    rw [if_neg h]
    simp [PResult.isPanic]
  · rw [if_neg hb]
    simp [PResult.isPanic]

/-- C4 amended witness: the 3-byte buffer `[1, 2, 3]` has no PNG
signature and the decode panics. -/
theorem C4_amended_signature_panic_witness :
    (Image.fromData [1, 2, 3] (fun _ => .ok [])).isPanic = true :=
  C4_amended_signature_panic [1, 2, 3] (fun _ => .ok []) (by decide)

/-- C5 counterexample: a chunk declaring length 100 in an 8-byte buffer
makes the reader panic on the payload slice, not return a FormatError. -/
theorem C5_counterexample :
    Chunk.new ⟨0, [0, 0, 0, 100, 73, 72, 68, 82]⟩ = .panic "slice index out of range" := rfl

/-- C5 amended: whenever the declared 4-byte big-endian length exceeds
the bytes remaining after the type tag, `Chunk::new` terminates
abnormally with a slice-bounds panic rather than returning a
FormatError. -/
theorem C5_amended_overlong_chunk_panics (front rest : List Nat)
    (l0 l1 l2 l3 t0 t1 t2 t3 : Nat)
    (h : rest.length < ((l0 <<< 24) ||| (l1 <<< 16) ||| (l2 <<< 8) ||| l3)) :
    Chunk.new ⟨front.length, front ++ ([l0, l1, l2, l3] ++ ([t0, t1, t2, t3] ++ rest))⟩ =
      .panic "slice index out of range" := by
  have ht : (([l0, l1, l2, l3] ++ ([t0, t1, t2, t3] ++ rest)).take 4 : List Nat) =
      [l0, l1, l2, l3] := rfl
  have h1 : sliceP (front ++ ([l0, l1, l2, l3] ++ ([t0, t1, t2, t3] ++ rest)))
      front.length (front.length + 4) = .ok [l0, l1, l2, l3] := by
    rw [sliceP_front_append front _ 4 (by simp), ht]
  unfold Chunk.new
  simp only [PResult.bind_eq]
  rw [h1, PResult.ok_bind]
  have g0 : ([l0, l1, l2, l3] : List Nat).getD 0 0 = l0 := rfl
  have g1 : ([l0, l1, l2, l3] : List Nat).getD 1 0 = l1 := rfl
  have g2 : ([l0, l1, l2, l3] : List Nat).getD 2 0 = l2 := rfl
  have g3 : ([l0, l1, l2, l3] : List Nat).getD 3 0 = l3 := rfl
  rw [g0, g1, g2, g3]
  rw [sliceP_past_end _ _ _ (by simp [List.length_append]; omega)]
  simp

/-- C5 amended witness: declared length 1 with an empty remainder makes
the reader panic. -/
theorem C5_amended_overlong_chunk_panics_witness :
    Chunk.new ⟨0, [0, 0, 0, 1, 73, 72, 68, 82]⟩ = .panic "slice index out of range" := by
  have := C5_amended_overlong_chunk_panics [] [] 0 0 0 1 73 72 68 82 (by decide)
  simpa using this

/-- A chunk stream with two IHDR records (1x2 then 1x1 greyscale 8-bit)
and no image data. -/
def twoHdrStream : List Nat :=
  pngHdr ++ mkIhdrChunk 1 2 8 0 ++ mkIhdrChunk 1 1 8 0 ++ iendChunk

/-- The image the decoder produces for `twoHdrStream`: the second
header's fields, with the one defiltered sample. -/
def twoHdrImage : Image :=
  { width := 1, height := 1, bit_depth := 8, color_type := .Greyscale, interlaced := false,
    data := [7], plte := none, background := none, transparancy := none }

/-- C6 counterexample: a stream containing two header records decodes
successfully — the assembler never checks for a duplicate IHDR, so no
FormatError is produced. -/
theorem C6_counterexample :
    Image.fromData twoHdrStream (fun _ => .ok [0, 7]) = .ok twoHdrImage ∧
    (Image.fromData twoHdrStream (fun _ => .ok [0, 7])).isErr = false :=
  ⟨rfl, rfl⟩

/-- C6 amended: the assembler does not reject a stream with two header
records; it accepts the stream, and the later header's fields overwrite
the earlier's (here height 1 replaces height 2). -/
theorem C6_amended_two_headers_accepted (inflate : List Nat → PResult (List Nat))
    (h : inflate [] = .ok [0, 7]) :
    Image.fromData twoHdrStream inflate = .ok twoHdrImage := by
  have h1 : Image.fromData twoHdrStream inflate =
      PResult.bind (inflate []) fun filtered =>
        reverse_filter filtered
          { width := 1, height := 1, bit_depth := 8, color_type := .Greyscale,
            interlaced := false, data := [], plte := none, background := none,
            transparancy := none } := rfl
  rw [h1, h, PResult.ok_bind]
  rfl

/-- C6 amended witness: instantiating the inflate collaborator with the
constant `[0, 7]` stream. -/
theorem C6_amended_two_headers_accepted_witness :
    Image.fromData twoHdrStream (fun _ => .ok [0, 7]) = .ok twoHdrImage :=
  C6_amended_two_headers_accepted (fun _ => .ok [0, 7]) rfl

/-- A file whose header declares height 0 with otherwise legal fields
(width 1, greyscale, bit depth 8), followed by IEND. -/
def h0stream : List Nat := pngHdr ++ mkIhdrChunk 1 0 8 0 ++ iendChunk

/-- The header state assembled from `h0stream` before defiltering. -/
def h0image : Image :=
  { width := 1, height := 0, bit_depth := 8, color_type := .Greyscale, interlaced := false,
    data := [], plte := none, background := none, transparancy := none }

/-- C8: the defilterer divides the decompressed length by the declared
height, so any image state with height 0 panics with a division by
zero; and the full decode of a legal-looking height-0 file reaches that
division and panics (whatever the decompressor returns). -/
theorem C8_height_zero_panics :
    (∀ (filtered : List Nat) (image : Image), image.height = 0 →
      reverse_filter filtered image = .panic "attempt to divide by zero") ∧
    (∀ (inflate : List Nat → PResult (List Nat)) (f : List Nat), inflate [] = .ok f →
      Image.fromData h0stream inflate = .panic "attempt to divide by zero") := by
  constructor
  · intro filtered image h
    unfold reverse_filter
    rw [if_pos h]
  · intro inflate f h
    have h1 : Image.fromData h0stream inflate =
        PResult.bind (inflate []) fun filtered => reverse_filter filtered h0image := rfl
    rw [h1, h, PResult.ok_bind]
    rfl

/-- C8 witness: the decompressor returning an empty buffer still ends in
the division-by-zero panic. -/
theorem C8_height_zero_panics_witness :
    Image.fromData h0stream (fun _ => .ok []) = .panic "attempt to divide by zero" :=
  C8_height_zero_panics.2 (fun _ => .ok []) [] rfl

/-- A Palette-Indexed file whose tRNS chunk (one alpha byte) arrives
before any PLTE chunk. -/
def c9stream : List Nat :=
  pngHdr ++ mkIhdrChunk 1 1 8 3 ++ ([0, 0, 0, 1, 116, 82, 78, 83, 0, 0, 0, 0, 0])

/-- C9: on a Palette-Indexed stream whose transparency chunk precedes
the palette, the decoder panics via the `expect` on the missing palette
(for any decompressor), instead of returning a FormatError. -/
theorem C9_trns_before_plte_panics (inflate : List Nat → PResult (List Nat)) :
    Image.fromData c9stream inflate = .panic "missing PLTE chunk" := rfl
